import Mathlib

/-!
# SirenBase counting-session workflow: shallow embedding

This file embeds the counting-session workflow engine of the SirenBase
backend (Milk Order and RTD&E tools) and proves properties of it.

Source files embedded:
* `backend/app/models/milk_count.py` — session/entry models, `SessionStatus`,
  `MorningMethod`, `mark_*_complete`, `calculate_delivered`.
* `backend/app/routes/tools/milk_order/sessions.py` — the phase-save route
  handlers (`save_night_foh`, `save_night_boh`, `save_morning_count`,
  `save_on_order`) and the summary aggregator (`get_session_summary`).
* `backend/app/models/rtde.py` — `RTDECountSession.is_expired`,
  `mark_completed`, the 30-minute expiry window, `RTDESessionCount`.
* `backend/app/routes/tools/rtde/sessions.py` — `get_active_session`,
  `start_session`, `get_session`, `update_count`, `get_pull_list`,
  `complete_session`.

Modelling conventions:
* Database ids are `Nat`; timestamps are `Nat` (seconds); Python `int`
  column values are `Int`.
* A JSON value that may fail the `isinstance(x, int)` check is modelled by
  `JVal` (`int n` or `nonint`); a possibly-missing JSON key is an `Option`.
* Each route handler is a pure function returning `Except Err σ`.  An
  `error` result models the handler returning before `db.session.commit()`:
  uncommitted ORM mutations are discarded at request teardown, so the
  committed (persisted) state after an error is the pre-call state.  The
  helpers `committedMilk` / `rtdeAfter` make that explicit.
-/

namespace SirenBase

-- ===========================================================================
-- Milk Order data model (models/milk_count.py; the milk_order variant
-- used by the routes renames the classes but keeps the same fields/logic)
-- ===========================================================================

/-- `SessionStatus` enum: the linear phase sequence of a Milk Order session. -/
inductive SessionStatus
  | nightFoh
  | nightBoh
  | morning
  | onOrder
  | completed
deriving DecidableEq, Repr

/-- Position of a status in the fixed phase sequence. -/
def SessionStatus.idx : SessionStatus → Nat
  | .nightFoh => 0
  | .nightBoh => 1
  | .morning => 2
  | .onOrder => 3
  | .completed => 4

/-- `MorningMethod` enum values (stored as strings in the entry row). -/
def MorningMethod.BOH_COUNT : String := "boh_count"

def MorningMethod.DIRECT_DELIVERED : String := "direct_delivered"

/-- A milk type catalog row with its (optional) par-level row
(`MilkType` + `MilkCountParLevel`). -/
structure MilkType where
  id : Nat
  name : String
  category : String
  display_order : Int
  active : Bool
  par_value : Option Int
deriving DecidableEq, Repr

/-- A `milk_count_entries` row: one entry per (session, milk type). -/
structure MilkOrderEntry where
  milk_type_id : Nat
  foh_count : Option Int := none
  boh_count : Option Int := none
  morning_method : Option String := none
  current_boh : Option Int := none
  delivered : Option Int := none
  on_order : Option Int := none
  updated_at : Nat := 0
deriving DecidableEq, Repr

/-- A `milk_count_sessions` row together with its owned entry rows. -/
structure MilkOrderSession where
  status : SessionStatus
  entries : List MilkOrderEntry
  night_count_user_id : Option Nat := none
  morning_count_user_id : Option Nat := none
  night_foh_saved_at : Option Nat := none
  night_boh_saved_at : Option Nat := none
  morning_saved_at : Option Nat := none
  on_order_saved_at : Option Nat := none
  completed_at : Option Nat := none
deriving DecidableEq, Repr

/-- `mark_night_foh_complete`: advance to BOH phase, stamp time and user. -/
def MilkOrderSession.mark_night_foh_complete (s : MilkOrderSession)
    (user_id now : Nat) : MilkOrderSession :=
  { s with
    status := .nightBoh
    night_foh_saved_at := some now
    night_count_user_id := some user_id }

/-- `mark_night_boh_complete`: advance to morning phase, stamp time
(no user re-stamp). -/
def MilkOrderSession.mark_night_boh_complete (s : MilkOrderSession)
    (now : Nat) : MilkOrderSession :=
  { s with
    status := .morning
    night_boh_saved_at := some now }

/-- `mark_morning_complete`: advance to on-order phase, stamp time and user. -/
def MilkOrderSession.mark_morning_complete (s : MilkOrderSession)
    (user_id now : Nat) : MilkOrderSession :=
  { s with
    status := .onOrder
    morning_saved_at := some now
    morning_count_user_id := some user_id }

/-- `mark_on_order_complete`: finalize the session; the on-order user
overwrites the same `morning_count_user_id` field. -/
def MilkOrderSession.mark_on_order_complete (s : MilkOrderSession)
    (user_id now : Nat) : MilkOrderSession :=
  { s with
    status := .completed
    on_order_saved_at := some now
    completed_at := some now
    morning_count_user_id := some user_id }

/-- `MilkCountEntry.calculate_delivered` (models/milk_count.py):
BOH-count method needs both `current_boh` and `boh_count` present;
direct method returns the stored `delivered`; otherwise `None`. -/
def MilkOrderEntry.calculate_delivered (e : MilkOrderEntry) : Option Int :=
  if e.morning_method = some MorningMethod.BOH_COUNT then
    match e.current_boh, e.boh_count with
    | some c, some b => some (max 0 (c - b))
    | _, _ => none
  else if e.morning_method = some MorningMethod.DIRECT_DELIVERED then
    e.delivered
  else
    none

-- ===========================================================================
-- Milk Order route handlers (routes/tools/milk_order/sessions.py)
-- ===========================================================================

/-- A JSON value submitted for an integer field: either a Python `int`
or something failing the `isinstance(x, int)` check. -/
inductive JVal
  | int (n : Int)
  | nonint
deriving DecidableEq, Repr

/-- Errors of the Milk Order phase-save handlers (HTTP 404/400 bodies). -/
inductive MilkErr
  | notFound
  | invalidPhase (actual : SessionStatus)
  | validation (msg : String)
deriving DecidableEq, Repr

/-- One element of the request `counts` array for FOH/BOH/on-order saves;
`none` fields model missing JSON keys. -/
structure CountItem where
  milk_type_id : Option Nat
  value : Option JVal
deriving DecidableEq, Repr

/-- One element of the request `counts` array for the morning save. -/
structure MorningCountItem where
  milk_type_id : Option Nat
  method : Option String
  current_boh : Option JVal
  delivered : Option JVal
deriving DecidableEq, Repr

/-- Update the first entry matching `mtid` (unique constraint guarantees at
most one); an unmatched id is silently skipped (`if entry:` in the source). -/
def updateEntry (entries : List MilkOrderEntry) (mtid : Nat)
    (f : MilkOrderEntry → MilkOrderEntry) : List MilkOrderEntry :=
  match entries with
  | [] => []
  | e :: rest =>
    if e.milk_type_id = mtid then f e :: rest
    else e :: updateEntry rest mtid f

/-- Well-formedness of one FOH/BOH/on-order count item: both keys present
and the value a non-negative Python int. -/
def countItemOk (c : CountItem) : Bool :=
  match c.milk_type_id, c.value with
  | some _, some (.int n) => decide (0 ≤ n)
  | _, _ => false

/-- The per-item loop body shared by the FOH, BOH and on-order saves:
validate presence and non-negative-int, then update the matching entry
via `set` (skipping unknown ids). -/
def applyCounts (set : Int → Nat → MilkOrderEntry → MilkOrderEntry)
    (fieldMsg presenceMsg : String) (now : Nat)
    (entries : List MilkOrderEntry) :
    List CountItem → Except MilkErr (List MilkOrderEntry)
  | [] => .ok entries
  | c :: rest =>
    match c.milk_type_id, c.value with
    | some mtid, some (.int n) =>
      if 0 ≤ n then
        applyCounts set fieldMsg presenceMsg now
          (updateEntry entries mtid (set n now)) rest
      else
        .error (.validation fieldMsg)
    | some _, some .nonint => .error (.validation fieldMsg)
    | _, _ => .error (.validation presenceMsg)

/-- Write an entry's `foh_count` and `updated_at`. -/
def setFoh (n : Int) (now : Nat) (e : MilkOrderEntry) : MilkOrderEntry :=
  { e with foh_count := some n, updated_at := now }

/-- Write an entry's `boh_count` and `updated_at`. -/
def setBoh (n : Int) (now : Nat) (e : MilkOrderEntry) : MilkOrderEntry :=
  { e with boh_count := some n, updated_at := now }

/-- Write an entry's `on_order` and `updated_at`. -/
def setOnOrder (n : Int) (now : Nat) (e : MilkOrderEntry) : MilkOrderEntry :=
  { e with on_order := some n, updated_at := now }

/-- `save_night_foh` route handler: phase gate, per-item validation and
entry writes, then `mark_night_foh_complete` and commit. -/
def save_night_foh (s : MilkOrderSession) (current_user_id now : Nat)
    (counts : List CountItem) : Except MilkErr MilkOrderSession :=
  if s.status ≠ SessionStatus.nightFoh then
    .error (.invalidPhase s.status)
  else
    (applyCounts setFoh "foh_count must be a non-negative integer"
        "Each count must have milk_type_id and foh_count" now
        s.entries counts).map
      fun es =>
        MilkOrderSession.mark_night_foh_complete
          { s with entries := es } current_user_id now

/-- `save_night_boh` route handler. -/
def save_night_boh (s : MilkOrderSession) (now : Nat)
    (counts : List CountItem) : Except MilkErr MilkOrderSession :=
  if s.status ≠ SessionStatus.nightBoh then
    .error (.invalidPhase s.status)
  else
    (applyCounts setBoh "boh_count must be a non-negative integer"
        "Each count must have milk_type_id and boh_count" now
        s.entries counts).map
      fun es =>
        MilkOrderSession.mark_night_boh_complete { s with entries := es } now

/-- Morning-save per-entry update: the source sets `morning_method` first,
then validates and applies the method-specific field. -/
def applyMorningEntry (c : MorningCountItem) (method : String) (now : Nat)
    (e : MilkOrderEntry) : Except MilkErr MilkOrderEntry :=
  let e := { e with morning_method := some method }
  if method = MorningMethod.BOH_COUNT then
    match c.current_boh with
    | none => .error (.validation "current_boh required for boh_count method")
    | some (.int n) =>
      if 0 ≤ n then
        .ok { e with
              current_boh := some n
              delivered := some (max 0 (n - (e.boh_count.getD 0)))
              updated_at := now }
      else
        .error (.validation "current_boh must be a non-negative integer")
    | some .nonint =>
      .error (.validation "current_boh must be a non-negative integer")
  else
    match c.delivered with
    | none => .error (.validation "delivered required for direct_delivered method")
    | some (.int n) =>
      if 0 ≤ n then
        .ok { e with
              delivered := some n
              current_boh := none
              updated_at := now }
      else
        .error (.validation "delivered must be a non-negative integer")
    | some .nonint =>
      .error (.validation "delivered must be a non-negative integer")

/-- Apply a morning count item to the first matching entry; an unmatched
id is silently skipped, and its method-specific validation is skipped too
(it sits inside `if entry:` in the source). -/
def applyMorningToEntries (entries : List MilkOrderEntry) (mtid : Nat)
    (c : MorningCountItem) (method : String) (now : Nat) :
    Except MilkErr (List MilkOrderEntry) :=
  match entries with
  | [] => .ok []
  | e :: rest =>
    if e.milk_type_id = mtid then
      (applyMorningEntry c method now e).map (· :: rest)
    else
      (applyMorningToEntries rest mtid c method now).map (e :: ·)

/-- The morning-save loop over the `counts` array: presence and method
membership are checked before the entry lookup. -/
def applyMorningCounts (now : Nat) (entries : List MilkOrderEntry) :
    List MorningCountItem → Except MilkErr (List MilkOrderEntry)
  | [] => .ok entries
  | c :: rest =>
    match c.milk_type_id, c.method with
    | some mtid, some m =>
      if m = MorningMethod.BOH_COUNT ∨ m = MorningMethod.DIRECT_DELIVERED then
        match applyMorningToEntries entries mtid c m now with
        | .error err => .error err
        | .ok es => applyMorningCounts now es rest
      else
        .error (.validation "Invalid method")
    | _, _ => .error (.validation "Each count must have milk_type_id and method")

/-- `save_morning_count` route handler. -/
def save_morning_count (s : MilkOrderSession) (current_user_id now : Nat)
    (counts : List MorningCountItem) : Except MilkErr MilkOrderSession :=
  if s.status ≠ SessionStatus.morning then
    .error (.invalidPhase s.status)
  else
    (applyMorningCounts now s.entries counts).map
      fun es =>
        MilkOrderSession.mark_morning_complete
          { s with entries := es } current_user_id now

/-- `save_on_order` route handler. -/
def save_on_order (s : MilkOrderSession) (current_user_id now : Nat)
    (on_orders : List CountItem) : Except MilkErr MilkOrderSession :=
  if s.status ≠ SessionStatus.onOrder then
    .error (.invalidPhase s.status)
  else
    (applyCounts setOnOrder "on_order must be a non-negative integer"
        "Each entry must have milk_type_id and on_order" now
        s.entries on_orders).map
      fun es =>
        MilkOrderSession.mark_on_order_complete
          { s with entries := es } current_user_id now

/-- The persisted session after a phase-save call: an error response is
returned before `db.session.commit()`, so nothing is committed and the
pre-call state stands. -/
def committedMilk (s : MilkOrderSession)
    (r : Except MilkErr MilkOrderSession) : MilkOrderSession :=
  match r with
  | .ok s' => s'
  | .error _ => s

-- ===========================================================================
-- Milk Order summary aggregator (get_session_summary)
-- ===========================================================================

/-- One row of the session summary. -/
structure SummaryRow where
  milk_type : String
  category : String
  foh : Int
  boh : Int
  delivered : Int
  on_order : Int
  total : Int
  par : Int
  order : Int
deriving DecidableEq, Repr

/-- The store-level totals object of the summary. -/
structure SummaryTotals where
  total_foh : Int
  total_boh : Int
  total_delivered : Int
  total_on_order : Int
  total_inventory : Int
  total_order : Int
deriving DecidableEq, Repr

/-- The per-entry computation of `get_session_summary`: every missing
component is treated as 0 (`or 0` in the source), `total = foh + boh +
delivered`, `order = max(0, par - total - on_order)`. -/
def summaryRow (e : MilkOrderEntry) (mt : MilkType) : SummaryRow :=
  let foh := e.foh_count.getD 0
  let boh := e.boh_count.getD 0
  let delivered := (e.calculate_delivered).getD 0
  let on_order := e.on_order.getD 0
  let total := foh + boh + delivered
  let par := mt.par_value.getD 0
  let order := max 0 (par - total - on_order)
  { milk_type := mt.name
    category := mt.category
    foh := foh
    boh := boh
    delivered := delivered
    on_order := on_order
    total := total
    par := par
    order := order }

/-- Stable insertion sort by an integer key (models the route's
`sorted(..., key=display_order)`). -/
def insertByKey {α : Type} (key : α → Int) (a : α) :
    List α → List α
  | [] => [a]
  | b :: rest =>
    if key a < key b then a :: b :: rest else b :: insertByKey key a rest

/-- Sort a list by an integer key. -/
def sortByKey {α : Type} (key : α → Int) : List α → List α
  | [] => []
  | a :: rest => insertByKey key a (sortByKey key rest)

/-- `get_session_summary` route handler: entries sorted by the milk type's
display order, entries with no resolvable milk type skipped, per-row math
as in `summaryRow`, and all columns summed into the totals object. -/
def get_session_summary (s : MilkOrderSession) (milkTypes : List MilkType) :
    List SummaryRow × SummaryTotals :=
  let resolved := s.entries.filterMap fun e =>
    (milkTypes.find? fun mt => mt.id = e.milk_type_id).map fun mt => (e, mt)
  let sorted := sortByKey (fun p => p.2.display_order) resolved
  let rows := sorted.map fun p => summaryRow p.1 p.2
  let totals := rows.foldl
    (fun t r =>
      { total_foh := t.total_foh + r.foh
        total_boh := t.total_boh + r.boh
        total_delivered := t.total_delivered + r.delivered
        total_on_order := t.total_on_order + r.on_order
        total_inventory := t.total_inventory + r.total
        total_order := t.total_order + r.order })
    ⟨0, 0, 0, 0, 0, 0⟩
  (rows, totals)

-- ===========================================================================
-- RTD&E data model (models/rtde.py)
-- ===========================================================================

/-- An `rtde_items` row (fields relevant to the workflow). -/
structure RTDEItem where
  id : Nat
  name : String
  par_level : Int
  display_order : Int
  active : Bool := true
deriving DecidableEq, Repr

/-- An `rtde_count_sessions` row; `status` is a plain string column with
values `in_progress`, `completed`, `expired`. -/
structure RTDECountSession where
  id : Nat
  user_id : Nat
  status : String
  started_at : Nat
  expires_at : Nat
  completed_at : Option Nat := none
deriving DecidableEq, Repr

/-- An `rtde_session_counts` row. -/
structure RTDESessionCount where
  session_id : Nat
  item_id : Nat
  counted_quantity : Int
  is_pulled : Bool := false
  updated_at : Nat := 0
deriving DecidableEq, Repr

/-- The persistent store the RTD&E routes operate on. -/
structure RTDEState where
  sessions : List RTDECountSession
  counts : List RTDESessionCount
  items : List RTDEItem
deriving DecidableEq, Repr

/-- The fixed RTD&E expiry window: `started_at + timedelta(minutes=30)`
set in `RTDECountSession.__init__` (seconds). -/
def RTDE_EXPIRY_WINDOW : Nat := 30 * 60

/-- `RTDECountSession.is_expired`: `datetime.utcnow() > expires_at`. -/
def RTDECountSession.is_expired (s : RTDECountSession) (now : Nat) : Bool :=
  now > s.expires_at

/-- `RTDECountSession.mark_completed`. -/
def RTDECountSession.mark_completed (s : RTDECountSession) (now : Nat) :
    RTDECountSession :=
  { s with status := "completed", completed_at := some now }

-- ===========================================================================
-- RTD&E route handlers (routes/tools/rtde/sessions.py)
-- ===========================================================================

/-- Errors of the RTD&E session routes (HTTP 404/403/400 bodies). -/
inductive RtdeErr
  | notFound (what : String)
  | forbidden
  | validation (msg : String)
  | noActiveSession
deriving DecidableEq, Repr

/-- `RTDECountSession.query.get(session_id)`. -/
def findSession (st : RTDEState) (sid : Nat) : Option RTDECountSession :=
  st.sessions.find? fun s => s.id = sid

/-- The most recent of a list of sessions (`order_by(started_at.desc()).first()`). -/
def pickLatest : List RTDECountSession → Option RTDECountSession
  | [] => none
  | s :: rest =>
    match pickLatest rest with
    | none => some s
    | some t => if t.started_at > s.started_at then some t else some s

/-- The user's most recently started `in_progress` session. -/
def latestInProgress (st : RTDEState) (uid : Nat) :
    Option RTDECountSession :=
  pickLatest (st.sessions.filter fun s =>
    s.user_id = uid ∧ s.status = "in_progress")

/-- Overwrite the status of the session with the given id. -/
def setSessionStatus (st : RTDEState) (sid : Nat) (status : String) :
    RTDEState :=
  { st with
    sessions := st.sessions.map fun s =>
      if s.id = sid then { s with status := status } else s }

/-- `get_active_session` route handler: look up the user's latest
`in_progress` session; if expired, flip its persisted status to
`expired` and report no session; otherwise report its id. -/
def get_active_session (st : RTDEState) (uid now : Nat) :
    RTDEState × Option Nat :=
  match latestInProgress st uid with
  | none => (st, none)
  | some s =>
    if s.is_expired now then
      (setSessionStatus st s.id "expired", none)
    else
      (st, some s.id)

/-- The `action` field of the start-session request. -/
inductive StartAction
  | new
  | resume
deriving DecidableEq, Repr

/-- `start_session` route handler.  `resume` returns the latest
`in_progress` session unless it is absent or expired (no mutation on
either path); `new` deletes all of the user's `in_progress` sessions and
creates a fresh one expiring `RTDE_EXPIRY_WINDOW` after `now`. -/
def start_session (st : RTDEState) (uid now : Nat) (action : StartAction)
    (newId : Nat) : Except RtdeErr (RTDEState × Nat) :=
  match action with
  | .resume =>
    match latestInProgress st uid with
    | none => .error .noActiveSession
    | some s =>
      if s.is_expired now then .error .noActiveSession
      else .ok (st, s.id)
  | .new =>
    let kept := st.sessions.filter fun s =>
      ¬(s.user_id = uid ∧ s.status = "in_progress")
    let fresh : RTDECountSession :=
      { id := newId
        user_id := uid
        status := "in_progress"
        started_at := now
        expires_at := now + RTDE_EXPIRY_WINDOW }
    .ok ({ st with sessions := kept ++ [fresh] }, newId)

/-- The per-item view built by the session-fetch route. -/
structure SessionItemView where
  item_id : Nat
  counted_quantity : Int
  need_quantity : Int
  is_pulled : Bool
deriving DecidableEq, Repr

/-- The count row of a session for an item, if any. -/
def findCount (st : RTDEState) (sid iid : Nat) : Option RTDESessionCount :=
  st.counts.find? fun c => c.session_id = sid ∧ c.item_id = iid

/-- `get_session` route handler: existence then ownership check, then a
read-only view over all active items; note there is no expiry check and
no mutation on this path. -/
def get_session (st : RTDEState) (sid uid : Nat) :
    Except RtdeErr (RTDECountSession × List SessionItemView) :=
  match findSession st sid with
  | none => .error (.notFound "Session not found")
  | some s =>
    if s.user_id ≠ uid then .error .forbidden
    else
      let items := sortByKey (fun i => i.display_order)
        (st.items.filter fun i => i.active)
      .ok (s, items.map fun item =>
        let count := findCount st sid item.id
        let counted := (count.map fun c => c.counted_quantity).getD 0
        { item_id := item.id
          counted_quantity := counted
          need_quantity := max 0 (item.par_level - counted)
          is_pulled := (count.map fun c => c.is_pulled).getD false })

/-- The JSON body of the update-count request; `none` models a missing key. -/
structure UpdateCountInput where
  item_id : Option Nat
  counted_quantity : Option JVal
deriving DecidableEq, Repr

/-- Upsert the count row for (session, item): overwrite the quantity if a
row exists, else insert a fresh row with `is_pulled` defaulting to false. -/
def upsertCount (st : RTDEState) (sid iid : Nat) (n : Int) (now : Nat) :
    RTDEState :=
  match findCount st sid iid with
  | some _ =>
    { st with
      counts := st.counts.map fun c =>
        if c.session_id = sid ∧ c.item_id = iid then
          { c with counted_quantity := n, updated_at := now }
        else c }
  | none =>
    { st with
      counts := st.counts ++
        [{ session_id := sid
           item_id := iid
           counted_quantity := n
           updated_at := now }] }

/-- `update_count` route handler: existence, ownership, input validation,
item existence, then upsert and commit.  The session's `status` is never
consulted on this path. -/
def update_count (st : RTDEState) (sid uid now : Nat)
    (input : UpdateCountInput) : Except RtdeErr RTDEState :=
  match findSession st sid with
  | none => .error (.notFound "Session not found")
  | some s =>
    if s.user_id ≠ uid then .error .forbidden
    else
      match input.item_id, input.counted_quantity with
      | some iid, some (.int n) =>
        if n < 0 then
          .error (.validation "counted_quantity must be a non-negative integer")
        else
          match st.items.find? fun i => i.id = iid with
          | none => .error (.notFound "Item not found")
          | some _ => .ok (upsertCount st sid iid n now)
      | some _, some .nonint =>
        .error (.validation "counted_quantity must be a non-negative integer")
      | _, _ =>
        .error (.validation "item_id and counted_quantity required")

/-- One row of the pull list. -/
structure PullListRow where
  item_id : Nat
  need_quantity : Int
  is_pulled : Bool
deriving DecidableEq, Repr

/-- The per-item body of the pull-list loop: `need =
max(0, par_level - counted_quantity)` with a missing count row counting
as 0; an item is emitted only when `need > 0`. -/
def pullRow (st : RTDEState) (sid : Nat) (item : RTDEItem) :
    Option PullListRow :=
  let count := findCount st sid item.id
  let counted := (count.map fun c => c.counted_quantity).getD 0
  let need := max 0 (item.par_level - counted)
  if need > 0 then
    some { item_id := item.id
           need_quantity := need
           is_pulled := (count.map fun c => c.is_pulled).getD false }
  else
    none

/-- `get_pull_list` route handler: apply `pullRow` to every active item in
display order, then return the rows with the aggregate counts (list
length and how many rows are already pulled). -/
def get_pull_list (st : RTDEState) (sid uid : Nat) :
    Except RtdeErr (List PullListRow × Nat × Nat) :=
  match findSession st sid with
  | none => .error (.notFound "Session not found")
  | some s =>
    if s.user_id ≠ uid then .error .forbidden
    else
      let items := sortByKey (fun i => i.display_order)
        (st.items.filter fun i => i.active)
      let pl := items.filterMap (pullRow st sid)
      .ok (pl, pl.length, (pl.filter fun r => r.is_pulled).length)

/-- `complete_session` route handler: existence, ownership, then —
committed atomically — `mark_completed` on the target session, deletion
of all of its count rows, and deletion of every other `in_progress`
session of the same user.  The target session row itself is kept. -/
def complete_session (st : RTDEState) (sid uid now : Nat) :
    Except RtdeErr RTDEState :=
  match findSession st sid with
  | none => .error (.notFound "Session not found")
  | some s =>
    if s.user_id ≠ uid then .error .forbidden
    else
      let marked := st.sessions.map fun t =>
        if t.id = sid then t.mark_completed now else t
      let sessions := marked.filter fun t =>
        ¬(t.user_id = uid ∧ t.status = "in_progress" ∧ t.id ≠ sid)
      let counts := st.counts.filter fun c => c.session_id ≠ sid
      .ok { st with sessions := sessions, counts := counts }

/-- The persisted store after a start-session call: an error response is
returned before any commit, so the pre-call state stands. -/
def rtdeAfter (st : RTDEState) (r : Except RtdeErr (RTDEState × Nat)) :
    RTDEState :=
  match r with
  | .ok (st', _) => st'
  | .error _ => st

/-- The persisted store after a state-mutating RTD&E call. -/
def rtdeCommitted (st : RTDEState) (r : Except RtdeErr RTDEState) :
    RTDEState :=
  match r with
  | .ok st' => st'
  | .error _ => st

-- ===========================================================================
-- Theorems
-- ===========================================================================

/-- One phase-save call either leaves the status unchanged or moves it from
exactly the required status to the fixed next status (one step forward in
the sequence), and a save against the wrong status changes nothing. -/
def StepsOne (s s' : MilkOrderSession) (required next : SessionStatus) :
    Prop :=
  (s'.status = s.status ∨
    (s.status = required ∧ s'.status = next ∧
      next.idx = required.idx + 1)) ∧
  (s.status ≠ required → s'.status = s.status)

/-- C1: every phase-save operation of the Milk Order workflow engine either
leaves the session status unchanged or advances it exactly one step along
NIGHT_FOH → NIGHT_BOH → MORNING → ON_ORDER → COMPLETED; a save whose
required current status does not match leaves the status unchanged, and
no operation ever moves the status backward. -/
theorem milk_phase_monotonicity (s : MilkOrderSession) (uid now : Nat)
    (cf cb co : List CountItem) (cm : List MorningCountItem) :
    StepsOne s (committedMilk s (save_night_foh s uid now cf))
      SessionStatus.nightFoh SessionStatus.nightBoh ∧
    StepsOne s (committedMilk s (save_night_boh s now cb))
      SessionStatus.nightBoh SessionStatus.morning ∧
    StepsOne s (committedMilk s (save_morning_count s uid now cm))
      SessionStatus.morning SessionStatus.onOrder ∧
    StepsOne s (committedMilk s (save_on_order s uid now co))
      SessionStatus.onOrder SessionStatus.completed := by
  refine ⟨?_, ?_, ?_, ?_⟩
  · unfold StepsOne committedMilk save_night_foh
    by_cases h : s.status = SessionStatus.nightFoh
    · rw [if_neg (by simp [h])]
      cases applyCounts setFoh "foh_count must be a non-negative integer"
          "Each count must have milk_type_id and foh_count" now s.entries cf with
      | error e => exact ⟨Or.inl rfl, fun _ => rfl⟩
      | ok es =>
        exact ⟨Or.inr ⟨h, rfl, rfl⟩, fun hc => absurd h hc⟩
    · rw [if_pos h]
      exact ⟨Or.inl rfl, fun _ => rfl⟩
  · unfold StepsOne committedMilk save_night_boh
    by_cases h : s.status = SessionStatus.nightBoh
    · rw [if_neg (by simp [h])]
      cases applyCounts setBoh "boh_count must be a non-negative integer"
          "Each count must have milk_type_id and boh_count" now s.entries cb with
      | error e => exact ⟨Or.inl rfl, fun _ => rfl⟩
      | ok es =>
        exact ⟨Or.inr ⟨h, rfl, rfl⟩, fun hc => absurd h hc⟩
    · rw [if_pos h]
      exact ⟨Or.inl rfl, fun _ => rfl⟩
  · unfold StepsOne committedMilk save_morning_count
    by_cases h : s.status = SessionStatus.morning
    · rw [if_neg (by simp [h])]
      cases applyMorningCounts now s.entries cm with
      | error e => exact ⟨Or.inl rfl, fun _ => rfl⟩
      | ok es =>
        exact ⟨Or.inr ⟨h, rfl, rfl⟩, fun hc => absurd h hc⟩
    · rw [if_pos h]
      exact ⟨Or.inl rfl, fun _ => rfl⟩
  · unfold StepsOne committedMilk save_on_order
    by_cases h : s.status = SessionStatus.onOrder
    · rw [if_neg (by simp [h])]
      cases applyCounts setOnOrder "on_order must be a non-negative integer"
          "Each entry must have milk_type_id and on_order" now s.entries co with
      | error e => exact ⟨Or.inl rfl, fun _ => rfl⟩
      | ok es =>
        exact ⟨Or.inr ⟨h, rfl, rfl⟩, fun hc => absurd h hc⟩
    · rw [if_pos h]
      exact ⟨Or.inl rfl, fun _ => rfl⟩

/-- Concrete FOH-phase session for the C1 witness. -/
def c1Session : MilkOrderSession := { status := .nightFoh, entries := [] }

/-- Witness for C1: the monotonicity theorem applied at a concrete
session and empty inputs. -/
theorem milk_phase_monotonicity_witness :
    StepsOne c1Session
      (committedMilk c1Session (save_night_foh c1Session 1 0 []))
      SessionStatus.nightFoh SessionStatus.nightBoh ∧
    StepsOne c1Session
      (committedMilk c1Session (save_night_boh c1Session 0 []))
      SessionStatus.nightBoh SessionStatus.morning ∧
    StepsOne c1Session
      (committedMilk c1Session (save_morning_count c1Session 1 0 []))
      SessionStatus.morning SessionStatus.onOrder ∧
    StepsOne c1Session
      (committedMilk c1Session (save_on_order c1Session 1 0 []))
      SessionStatus.onOrder SessionStatus.completed :=
  milk_phase_monotonicity c1Session 1 0 [] [] [] []

/-- A count list whose items are all well formed is applied without error. -/
lemma applyCounts_ok_of_wf (set : Int → Nat → MilkOrderEntry → MilkOrderEntry)
    (fm pm : String) (now : Nat) :
    ∀ (counts : List CountItem) (entries : List MilkOrderEntry),
      (∀ c ∈ counts, countItemOk c = true) →
      ∃ es, applyCounts set fm pm now entries counts = .ok es := by
  intro counts
  induction counts with
  | nil => exact fun entries _ => ⟨entries, rfl⟩
  | cons c rest ih =>
    intro entries hwf
    have hc := hwf c (List.mem_cons_self c rest)
    obtain ⟨mt, v⟩ := c
    rcases mt with _ | mtid
    · simp [countItemOk] at hc
    · rcases v with _ | v
      · simp [countItemOk] at hc
      · rcases v with n | _
        · simp only [countItemOk, decide_eq_true_eq] at hc
          simp only [applyCounts]
          rw [if_pos hc]
          exact ih _ fun d hd => hwf d (List.mem_cons_of_mem _ hd)
        · simp [countItemOk] at hc

/-- A count list containing a malformed item makes the whole loop fail
with a validation error. -/
lemma applyCounts_error_of_bad
    (set : Int → Nat → MilkOrderEntry → MilkOrderEntry)
    (fm pm : String) (now : Nat) :
    ∀ (counts : List CountItem) (entries : List MilkOrderEntry),
      (∃ c ∈ counts, countItemOk c = false) →
      ∃ msg, applyCounts set fm pm now entries counts =
        .error (.validation msg) := by
  intro counts
  induction counts with
  | nil => rintro entries ⟨c, hmem, _⟩; cases hmem
  | cons c rest ih =>
    rintro entries ⟨d, hmem, hbad⟩
    obtain ⟨mt, v⟩ := c
    rcases mt with _ | mtid
    · exact ⟨pm, rfl⟩
    · rcases v with _ | v
      · exact ⟨pm, rfl⟩
      · rcases v with n | _
        · by_cases hn : (0 : Int) ≤ n
          · simp only [applyCounts]
            rw [if_pos hn]
            rcases List.mem_cons.mp hmem with hd | hd
            · subst hd
              simp [countItemOk, hn] at hbad
            · exact ih _ ⟨d, hd, hbad⟩
          · refine ⟨fm, ?_⟩
            simp only [applyCounts]
            rw [if_neg hn]
        · exact ⟨fm, rfl⟩

/-- Updating an id that matches no entry leaves the entry list unchanged. -/
lemma updateEntry_of_no_match (mtid : Nat)
    (f : MilkOrderEntry → MilkOrderEntry) :
    ∀ (entries : List MilkOrderEntry),
      (∀ e ∈ entries, e.milk_type_id ≠ mtid) →
      updateEntry entries mtid f = entries := by
  intro entries
  induction entries with
  | nil => exact fun _ => rfl
  | cons e rest ih =>
    intro hno
    simp only [updateEntry]
    rw [if_neg (hno e (List.mem_cons_self e rest))]
    rw [ih fun d hd => hno d (List.mem_cons_of_mem _ hd)]

/-- Presence and method-membership checks of one morning count item —
the part of the morning validation that runs before the entry lookup. -/
def morningKeysOk (c : MorningCountItem) : Bool :=
  match c.milk_type_id, c.method with
  | some _, some m =>
    decide (m = MorningMethod.BOH_COUNT ∨ m = MorningMethod.DIRECT_DELIVERED)
  | _, _ => false

/-- Validity of the method-specific value of a morning count item — the
part of the morning validation that runs only when the entry exists. -/
def morningValueOk (m : String) (c : MorningCountItem) : Bool :=
  if m = MorningMethod.BOH_COUNT then
    match c.current_boh with
    | some (.int n) => decide (0 ≤ n)
    | _ => false
  else
    match c.delivered with
    | some (.int n) => decide (0 ≤ n)
    | _ => false

/-- A morning item with a bad method-specific value errors on an entry. -/
lemma applyMorningEntry_error_of_badvalue (c : MorningCountItem)
    (m : String) (now : Nat) (e : MilkOrderEntry)
    (hbad : morningValueOk m c = false) :
    ∃ msg, applyMorningEntry c m now e = .error (.validation msg) := by
  unfold applyMorningEntry
  unfold morningValueOk at hbad
  by_cases hm : m = MorningMethod.BOH_COUNT
  · rw [if_pos hm]
    rw [if_pos hm] at hbad
    dsimp only
    cases hc : c.current_boh with
    | none => exact ⟨_, rfl⟩
    | some v =>
      rw [hc] at hbad
      cases v with
      | int n =>
        simp only [decide_eq_false_iff_not] at hbad
        refine ⟨"current_boh must be a non-negative integer", ?_⟩
        dsimp only
        rw [if_neg hbad]
      | nonint => exact ⟨_, rfl⟩
  · rw [if_neg hm]
    rw [if_neg hm] at hbad
    dsimp only
    cases hd : c.delivered with
    | none => exact ⟨_, rfl⟩
    | some v =>
      rw [hd] at hbad
      cases v with
      | int n =>
        simp only [decide_eq_false_iff_not] at hbad
        refine ⟨"delivered must be a non-negative integer", ?_⟩
        dsimp only
        rw [if_neg hbad]
      | nonint => exact ⟨_, rfl⟩

/-- A morning item with a good method-specific value succeeds on an entry. -/
lemma applyMorningEntry_ok_of_value (c : MorningCountItem) (m : String)
    (now : Nat) (e : MilkOrderEntry) (hv : morningValueOk m c = true) :
    ∃ e', applyMorningEntry c m now e = .ok e' := by
  unfold applyMorningEntry
  unfold morningValueOk at hv
  by_cases hm : m = MorningMethod.BOH_COUNT
  · rw [if_pos hm]
    rw [if_pos hm] at hv
    dsimp only
    cases hc : c.current_boh with
    | none =>
      rw [hc] at hv
      simp at hv
    | some v =>
      rw [hc] at hv
      cases v with
      | int n =>
        simp only [decide_eq_true_eq] at hv
        refine ⟨{ e with
          morning_method := some m
          current_boh := some n
          delivered := some (max 0 (n - e.boh_count.getD 0))
          updated_at := now }, ?_⟩
        dsimp only
        rw [if_pos hv]
      | nonint => simp at hv
  · rw [if_neg hm]
    rw [if_neg hm] at hv
    dsimp only
    cases hd : c.delivered with
    | none =>
      rw [hd] at hv
      simp at hv
    | some v =>
      rw [hd] at hv
      cases v with
      | int n =>
        simp only [decide_eq_true_eq] at hv
        refine ⟨{ e with
          morning_method := some m
          delivered := some n
          current_boh := none
          updated_at := now }, ?_⟩
        dsimp only
        rw [if_pos hv]
      | nonint => simp at hv

/-- The per-entry morning update either fails with a validation error or
succeeds. -/
lemma applyMorningEntry_cases (c : MorningCountItem) (m : String)
    (now : Nat) (e : MilkOrderEntry) :
    (∃ msg, applyMorningEntry c m now e = .error (.validation msg)) ∨
    (∃ e', applyMorningEntry c m now e = .ok e') := by
  by_cases hv : morningValueOk m c = true
  · exact Or.inr (applyMorningEntry_ok_of_value c m now e hv)
  · refine Or.inl (applyMorningEntry_error_of_badvalue c m now e ?_)
    revert hv
    cases morningValueOk m c <;> simp

/-- The per-entry morning update never changes `milk_type_id`. -/
lemma applyMorningEntry_id (c : MorningCountItem) (m : String) (now : Nat)
    (e e' : MilkOrderEntry) (h : applyMorningEntry c m now e = .ok e') :
    e'.milk_type_id = e.milk_type_id := by
  unfold applyMorningEntry at h
  dsimp only at h
  split at h
  · split at h
    · cases h
    · split at h
      · cases h
        rfl
      · cases h
    · cases h
  · split at h
    · cases h
    · split at h
      · cases h
        rfl
      · cases h
    · cases h

/-- A morning item whose id matches no entry is skipped: the entry list
comes back unchanged, whatever the item's value fields hold. -/
lemma applyMorningToEntries_no_match (mtid : Nat) (c : MorningCountItem)
    (m : String) (now : Nat) :
    ∀ (entries : List MilkOrderEntry),
      (∀ e ∈ entries, e.milk_type_id ≠ mtid) →
      applyMorningToEntries entries mtid c m now = .ok entries := by
  intro entries
  induction entries with
  | nil => exact fun _ => rfl
  | cons e rest ih =>
    intro hno
    simp only [applyMorningToEntries]
    rw [if_neg (hno e (List.mem_cons_self e rest))]
    rw [ih fun d hd => hno d (List.mem_cons_of_mem _ hd)]
    rfl

/-- Applying one morning item over a list either fails with a validation
error or succeeds. -/
lemma applyMorningToEntries_cases (mtid : Nat) (c : MorningCountItem)
    (m : String) (now : Nat) :
    ∀ (entries : List MilkOrderEntry),
      (∃ msg, applyMorningToEntries entries mtid c m now =
        .error (.validation msg)) ∨
      (∃ es, applyMorningToEntries entries mtid c m now = .ok es) := by
  intro entries
  induction entries with
  | nil => exact Or.inr ⟨[], rfl⟩
  | cons e rest ih =>
    simp only [applyMorningToEntries]
    by_cases he : e.milk_type_id = mtid
    · rw [if_pos he]
      rcases applyMorningEntry_cases c m now e with ⟨msg, herr⟩ | ⟨e', hok⟩
      · rw [herr]
        exact Or.inl ⟨msg, rfl⟩
      · rw [hok]
        exact Or.inr ⟨e' :: rest, rfl⟩
    · rw [if_neg he]
      rcases ih with ⟨msg, herr⟩ | ⟨es, hok⟩
      · rw [herr]
        exact Or.inl ⟨msg, rfl⟩
      · rw [hok]
        exact Or.inr ⟨e :: es, rfl⟩

/-- A successful morning item application preserves the id column of the
entry list. -/
lemma applyMorningToEntries_ids (mtid : Nat) (c : MorningCountItem)
    (m : String) (now : Nat) :
    ∀ (entries es : List MilkOrderEntry),
      applyMorningToEntries entries mtid c m now = .ok es →
      es.map (fun e => e.milk_type_id) =
        entries.map (fun e => e.milk_type_id) := by
  intro entries
  induction entries with
  | nil =>
    intro es h
    cases h
    rfl
  | cons e rest ih =>
    intro es h
    simp only [applyMorningToEntries] at h
    by_cases he : e.milk_type_id = mtid
    · rw [if_pos he] at h
      cases happ : applyMorningEntry c m now e with
      | error err =>
        rw [happ] at h
        cases h
      | ok e' =>
        rw [happ] at h
        cases h
        simp only [List.map_cons]
        rw [applyMorningEntry_id c m now e e' happ]
    · rw [if_neg he] at h
      cases hrec : applyMorningToEntries rest mtid c m now with
      | error err =>
        rw [hrec] at h
        cases h
      | ok es' =>
        rw [hrec] at h
        cases h
        simp only [List.map_cons]
        rw [ih es' hrec]

/-- Shape of a morning item passing the key checks. -/
lemma keysOk_shape (c : MorningCountItem) (h : morningKeysOk c = true) :
    ∃ mtid m, c.milk_type_id = some mtid ∧ c.method = some m ∧
      (m = MorningMethod.BOH_COUNT ∨ m = MorningMethod.DIRECT_DELIVERED)
    := by
  unfold morningKeysOk at h
  cases hmt : c.milk_type_id with
  | none =>
    rw [hmt] at h
    simp at h
  | some mtid =>
    cases hm : c.method with
    | none =>
      rw [hmt, hm] at h
      simp at h
    | some m =>
      rw [hmt, hm] at h
      exact ⟨mtid, m, rfl, rfl, of_decide_eq_true h⟩

/-- A morning list containing an item with missing keys or an unknown
method fails with a validation error. -/
lemma applyMorningCounts_error_of_badkeys (now : Nat) :
    ∀ (mcounts : List MorningCountItem) (entries : List MilkOrderEntry),
      (∃ c ∈ mcounts, morningKeysOk c = false) →
      ∃ msg, applyMorningCounts now entries mcounts =
        .error (.validation msg) := by
  intro mcounts
  induction mcounts with
  | nil =>
    rintro entries ⟨c, hc, -⟩
    cases hc
  | cons c rest ih =>
    rintro entries ⟨d, hdmem, hbad⟩
    simp only [applyMorningCounts]
    cases hmt : c.milk_type_id with
    | none =>
      cases hm2 : c.method with
      | none => exact ⟨_, rfl⟩
      | some m2 => exact ⟨_, rfl⟩
    | some mtid =>
      cases hm : c.method with
      | none => exact ⟨_, rfl⟩
      | some m =>
        dsimp only
        by_cases hval : m = MorningMethod.BOH_COUNT ∨
          m = MorningMethod.DIRECT_DELIVERED
        · rw [if_pos hval]
          rcases List.mem_cons.mp hdmem with rfl | hdr
          · exfalso
            have hkt : morningKeysOk d = true := by
              unfold morningKeysOk
              rw [hmt, hm]
              exact decide_eq_true hval
            rw [hkt] at hbad
            cases hbad
          · rcases applyMorningToEntries_cases mtid c m now entries with
              ⟨msg, herr⟩ | ⟨es, hok⟩
            · rw [herr]
              exact ⟨msg, rfl⟩
            · rw [hok]
              exact ih es ⟨d, hdr, hbad⟩
        · rw [if_neg hval]
          exact ⟨_, rfl⟩

/-- A morning list whose items all pass the key checks but match no entry
is applied without error and without touching any entry. -/
lemma applyMorningCounts_skip_unknown (now : Nat) :
    ∀ (mcounts : List MorningCountItem) (entries : List MilkOrderEntry),
      (∀ c ∈ mcounts, morningKeysOk c = true ∧
        ∀ mtid, c.milk_type_id = some mtid →
          ∀ e ∈ entries, e.milk_type_id ≠ mtid) →
      applyMorningCounts now entries mcounts = .ok entries := by
  intro mcounts
  induction mcounts with
  | nil => exact fun entries _ => rfl
  | cons c rest ih =>
    intro entries h
    obtain ⟨hk, hno⟩ := h c (List.mem_cons_self c rest)
    obtain ⟨mtid, m, hmt, hm, hvalid⟩ := keysOk_shape c hk
    simp only [applyMorningCounts]
    rw [hmt, hm]
    dsimp only
    rw [if_pos hvalid]
    rw [applyMorningToEntries_no_match mtid c m now entries (hno mtid hmt)]
    exact ih entries fun d hd => h d (List.mem_cons_of_mem _ hd)

/-- A morning item with a bad value whose id matches some entry errors. -/
lemma applyMorningToEntries_error_of_match (mtid : Nat)
    (c : MorningCountItem) (m : String) (now : Nat)
    (hbad : morningValueOk m c = false) :
    ∀ (entries : List MilkOrderEntry),
      (∃ e ∈ entries, e.milk_type_id = mtid) →
      ∃ msg, applyMorningToEntries entries mtid c m now =
        .error (.validation msg) := by
  intro entries
  induction entries with
  | nil =>
    rintro ⟨e, he, -⟩
    cases he
  | cons a rest ih =>
    rintro ⟨e, hemem, heid⟩
    simp only [applyMorningToEntries]
    by_cases ha : a.milk_type_id = mtid
    · rw [if_pos ha]
      obtain ⟨msg, herr⟩ := applyMorningEntry_error_of_badvalue c m now a hbad
      rw [herr]
      exact ⟨msg, rfl⟩
    · rw [if_neg ha]
      rcases List.mem_cons.mp hemem with rfl | her
      · exact absurd heid ha
      · obtain ⟨msg, herr⟩ := ih ⟨e, her, heid⟩
        rw [herr]
        exact ⟨msg, rfl⟩

/-- A morning list with well-formed keys containing an item that matches
an existing entry and carries a bad method-specific value fails with a
validation error. -/
lemma applyMorningCounts_error_of_badvalue (now : Nat) :
    ∀ (mcounts : List MorningCountItem) (entries : List MilkOrderEntry),
      (∀ c ∈ mcounts, morningKeysOk c = true) →
      (∃ c ∈ mcounts, ∃ mtid m, c.milk_type_id = some mtid ∧
        c.method = some m ∧ (∃ e ∈ entries, e.milk_type_id = mtid) ∧
        morningValueOk m c = false) →
      ∃ msg, applyMorningCounts now entries mcounts =
        .error (.validation msg) := by
  intro mcounts
  induction mcounts with
  | nil =>
    rintro entries - ⟨c, hc, -⟩
    cases hc
  | cons c rest ih =>
    rintro entries hkeys
      ⟨d, hdmem, dmtid, dm, hdmt, hdm, ⟨e, hemem, heid⟩, hdbad⟩
    obtain ⟨mtid, m, hmt, hm, hvalid⟩ :=
      keysOk_shape c (hkeys c (List.mem_cons_self c rest))
    simp only [applyMorningCounts]
    rw [hmt, hm]
    dsimp only
    rw [if_pos hvalid]
    rcases List.mem_cons.mp hdmem with rfl | hdr
    · rw [hdmt] at hmt
      injection hmt with hmt
      subst hmt
      rw [hdm] at hm
      injection hm with hm
      subst hm
      obtain ⟨msg, herr⟩ := applyMorningToEntries_error_of_match dmtid d dm
        now hdbad entries ⟨e, hemem, heid⟩
      rw [herr]
      exact ⟨msg, rfl⟩
    · rcases applyMorningToEntries_cases mtid c m now entries with
        ⟨msg, herr⟩ | ⟨es, hok⟩
      · rw [herr]
        exact ⟨msg, rfl⟩
      · rw [hok]
        have hids := applyMorningToEntries_ids mtid c m now entries es hok
        have hex : ∃ e' ∈ es, e'.milk_type_id = dmtid := by
          have hmem2 : dmtid ∈ entries.map (fun x => x.milk_type_id) :=
            List.mem_map.mpr ⟨e, hemem, heid⟩
          rw [← hids] at hmem2
          obtain ⟨e', he', heq⟩ := List.mem_map.mp hmem2
          exact ⟨e', he', heq⟩
        exact ih es (fun x hx => hkeys x (List.mem_cons_of_mem _ hx))
          ⟨d, hdr, dmtid, dm, hdmt, hdm, hex, hdbad⟩

/-- C2 (amended): in the FOH, BOH and on-order phase saves, a count whose
value is negative or not an integer (or whose keys are missing) anywhere
in the list makes the whole call fail with ValidationError and commit
nothing, while a count whose `milk_type_id` matches no Entry Ledger row
is silently skipped and a fully well-formed list succeeds and advances
the status leaving unmatched entries untouched.  In the morning save, a
missing key or unknown method discriminator likewise fails the whole
call with nothing committed, but the method-specific value validation
runs only for counts matching an existing entry: a list of well-keyed
counts matching no entry succeeds unchanged even when their values are
negative, non-integer or missing, and a well-keyed list containing a
count that matches an existing entry and carries a bad or missing value
fails the whole call with ValidationError and zero mutations. -/
theorem milk_save_validation_atomic (s : MilkOrderSession) (uid now : Nat)
    (counts : List CountItem) (mcounts : List MorningCountItem) :
    (s.status = SessionStatus.nightFoh →
      ((∃ c ∈ counts, countItemOk c = false) →
        ∃ msg, save_night_foh s uid now counts =
            .error (.validation msg) ∧
          committedMilk s (save_night_foh s uid now counts) = s) ∧
      ((∀ c ∈ counts, countItemOk c = true) →
        ∃ s', save_night_foh s uid now counts = .ok s' ∧
          s'.status = SessionStatus.nightBoh)) ∧
    (s.status = SessionStatus.nightBoh →
      ((∃ c ∈ counts, countItemOk c = false) →
        ∃ msg, save_night_boh s now counts =
            .error (.validation msg) ∧
          committedMilk s (save_night_boh s now counts) = s) ∧
      ((∀ c ∈ counts, countItemOk c = true) →
        ∃ s', save_night_boh s now counts = .ok s' ∧
          s'.status = SessionStatus.morning)) ∧
    (s.status = SessionStatus.onOrder →
      ((∃ c ∈ counts, countItemOk c = false) →
        ∃ msg, save_on_order s uid now counts =
            .error (.validation msg) ∧
          committedMilk s (save_on_order s uid now counts) = s) ∧
      ((∀ c ∈ counts, countItemOk c = true) →
        ∃ s', save_on_order s uid now counts = .ok s' ∧
          s'.status = SessionStatus.completed)) ∧
    (∀ (mtid : Nat) (f : MilkOrderEntry → MilkOrderEntry),
      (∀ e ∈ s.entries, e.milk_type_id ≠ mtid) →
      updateEntry s.entries mtid f = s.entries) ∧
    (s.status = SessionStatus.morning →
      ((∃ c ∈ mcounts, morningKeysOk c = false) →
        ∃ msg, save_morning_count s uid now mcounts =
            .error (.validation msg) ∧
          committedMilk s (save_morning_count s uid now mcounts) = s) ∧
      ((∀ c ∈ mcounts, morningKeysOk c = true ∧
          ∀ mtid, c.milk_type_id = some mtid →
            ∀ e ∈ s.entries, e.milk_type_id ≠ mtid) →
        ∃ s', save_morning_count s uid now mcounts = .ok s' ∧
          s'.status = SessionStatus.onOrder ∧ s'.entries = s.entries) ∧
      ((∀ c ∈ mcounts, morningKeysOk c = true) →
        (∃ c ∈ mcounts, ∃ mtid m, c.milk_type_id = some mtid ∧
          c.method = some m ∧ (∃ e ∈ s.entries, e.milk_type_id = mtid) ∧
          morningValueOk m c = false) →
        ∃ msg, save_morning_count s uid now mcounts =
            .error (.validation msg) ∧
          committedMilk s (save_morning_count s uid now mcounts) = s)) := by
  refine ⟨?_, ?_, ?_,
    fun mtid f hno => updateEntry_of_no_match mtid f s.entries hno, ?_⟩
  · intro hst
    constructor
    · intro hbad
      obtain ⟨msg, hmsg⟩ := applyCounts_error_of_bad setFoh
        "foh_count must be a non-negative integer"
        "Each count must have milk_type_id and foh_count" now counts
        s.entries hbad
      refine ⟨msg, ?_⟩
      unfold save_night_foh
      rw [if_neg (by simp [hst]), hmsg]
      exact ⟨rfl, rfl⟩
    · intro hwf
      obtain ⟨es, hes⟩ := applyCounts_ok_of_wf setFoh
        "foh_count must be a non-negative integer"
        "Each count must have milk_type_id and foh_count" now counts
        s.entries hwf
      unfold save_night_foh
      rw [if_neg (by simp [hst]), hes]
      exact ⟨_, rfl, rfl⟩
  · intro hst
    constructor
    · intro hbad
      obtain ⟨msg, hmsg⟩ := applyCounts_error_of_bad setBoh
        "boh_count must be a non-negative integer"
        "Each count must have milk_type_id and boh_count" now counts
        s.entries hbad
      refine ⟨msg, ?_⟩
      unfold save_night_boh
      rw [if_neg (by simp [hst]), hmsg]
      exact ⟨rfl, rfl⟩
    · intro hwf
      obtain ⟨es, hes⟩ := applyCounts_ok_of_wf setBoh
        "boh_count must be a non-negative integer"
        "Each count must have milk_type_id and boh_count" now counts
        s.entries hwf
      unfold save_night_boh
      rw [if_neg (by simp [hst]), hes]
      exact ⟨_, rfl, rfl⟩
  · intro hst
    constructor
    · intro hbad
      obtain ⟨msg, hmsg⟩ := applyCounts_error_of_bad setOnOrder
        "on_order must be a non-negative integer"
        "Each entry must have milk_type_id and on_order" now counts
        s.entries hbad
      refine ⟨msg, ?_⟩
      unfold save_on_order
      rw [if_neg (by simp [hst]), hmsg]
      exact ⟨rfl, rfl⟩
    · intro hwf
      obtain ⟨es, hes⟩ := applyCounts_ok_of_wf setOnOrder
        "on_order must be a non-negative integer"
        "Each entry must have milk_type_id and on_order" now counts
        s.entries hwf
      unfold save_on_order
      rw [if_neg (by simp [hst]), hes]
      exact ⟨_, rfl, rfl⟩
  · intro hst
    refine ⟨?_, ?_, ?_⟩
    · intro hbad
      obtain ⟨msg, hmsg⟩ :=
        applyMorningCounts_error_of_badkeys now mcounts s.entries hbad
      refine ⟨msg, ?_⟩
      unfold save_morning_count
      rw [if_neg (by simp [hst]), hmsg]
      exact ⟨rfl, rfl⟩
    · intro hskip
      unfold save_morning_count
      rw [if_neg (by simp [hst]),
        applyMorningCounts_skip_unknown now mcounts s.entries hskip]
      exact ⟨_, rfl, rfl, rfl⟩
    · intro hkeys hbad
      obtain ⟨msg, hmsg⟩ :=
        applyMorningCounts_error_of_badvalue now mcounts s.entries hkeys hbad
      refine ⟨msg, ?_⟩
      unfold save_morning_count
      rw [if_neg (by simp [hst]), hmsg]
      exact ⟨rfl, rfl⟩

/-- Concrete session for the C2 counterexample: one entry for milk type 1,
session in the FOH phase. -/
def c2Session : MilkOrderSession :=
  { status := .nightFoh, entries := [{ milk_type_id := 1 }] }

/-- A counts list referencing milk type 7, which has no entry row. -/
def c2Counts : List CountItem := [⟨some 7, some (.int 5)⟩]

/-- Morning-phase session for the C2 counterexample, again with one
entry for milk type 1. -/
def c2MorningSession : MilkOrderSession :=
  { status := .morning, entries := [{ milk_type_id := 1 }] }

/-- C2 counterexample: a count whose `milk_type_id` matches no Entry
Ledger row does not fail the call — `save_night_foh` succeeds, advances
the status and changes no entry; and in the morning save the same skip
happens even when the unmatched count carries a negative `current_boh`,
because the value validation sits inside the entry-found branch. -/
theorem milk_unknown_id_skipped :
    (∃ s', save_night_foh c2Session 1 5 c2Counts = .ok s' ∧
      s'.status = SessionStatus.nightBoh ∧
      s'.entries = c2Session.entries) ∧
    (∃ s', save_morning_count c2MorningSession 1 5
        [⟨some 7, some MorningMethod.BOH_COUNT, some (.int (-5)), none⟩] =
          .ok s' ∧
      s'.status = SessionStatus.onOrder ∧
      s'.entries = c2MorningSession.entries) :=
  ⟨⟨_, rfl, rfl, rfl⟩, ⟨_, rfl, rfl, rfl⟩⟩

/-- Witness for C2's amended theorem: a non-integer FOH value fails the
call with a validation error and no commit, and a negative morning
`current_boh` on a count that matches the existing entry does the same. -/
theorem milk_save_validation_atomic_witness :
    (∃ msg, save_night_foh c2Session 1 5 [⟨some 1, some JVal.nonint⟩] =
        .error (.validation msg) ∧
      committedMilk c2Session
        (save_night_foh c2Session 1 5 [⟨some 1, some JVal.nonint⟩]) =
        c2Session) ∧
    (∃ msg, save_morning_count c2MorningSession 1 5
        [⟨some 1, some MorningMethod.BOH_COUNT, some (.int (-5)), none⟩] =
          .error (.validation msg) ∧
      committedMilk c2MorningSession
        (save_morning_count c2MorningSession 1 5
          [⟨some 1, some MorningMethod.BOH_COUNT,
            some (.int (-5)), none⟩]) = c2MorningSession) := by
  have h1 := ((milk_save_validation_atomic c2Session 1 5
    [⟨some 1, some JVal.nonint⟩] []).1 rfl).1
  have h2 := ((milk_save_validation_atomic c2MorningSession 1 5 []
    [⟨some 1, some MorningMethod.BOH_COUNT,
      some (.int (-5)), none⟩]).2.2.2.2 rfl).2.2
  refine ⟨h1 ⟨⟨some 1, some JVal.nonint⟩, by decide, rfl⟩, h2 ?_ ?_⟩
  · intro c hc
    rcases List.mem_cons.mp hc with rfl | hc
    · decide
    · cases hc
  · refine ⟨⟨some 1, some MorningMethod.BOH_COUNT,
      some (.int (-5)), none⟩, by decide, 1, MorningMethod.BOH_COUNT,
      rfl, rfl, ⟨{ milk_type_id := 1 }, by decide, rfl⟩, by decide⟩

/-- Inversion of a successful `complete_session` call: the session was
found, owned by the caller, and the committed state is exactly the
marked-and-filtered store. -/
lemma complete_session_inv (st : RTDEState) (sid uid now : Nat)
    (st' : RTDEState) (h : complete_session st sid uid now = .ok st') :
    ∃ s, findSession st sid = some s ∧ s.user_id = uid ∧
      st' = { st with
        sessions :=
          (st.sessions.map fun t =>
            if t.id = sid then t.mark_completed now else t).filter
            fun t => ¬(t.user_id = uid ∧ t.status = "in_progress" ∧
              t.id ≠ sid)
        counts := st.counts.filter fun c => c.session_id ≠ sid } := by
  unfold complete_session at h
  split at h
  · cases h
  · rename_i s hfind
    split at h
    · cases h
    · rename_i hown
      cases h
      exact ⟨s, hfind, not_not.mp hown, rfl⟩

/-- A found session bears the looked-up id. -/
lemma findSession_id (st : RTDEState) (sid : Nat) (s : RTDECountSession)
    (h : findSession st sid = some s) : s.id = sid := by
  unfold findSession at h
  have hp := List.find?_some h
  simpa using hp

/-- A found session is in the store. -/
lemma findSession_mem (st : RTDEState) (sid : Nat) (s : RTDECountSession)
    (h : findSession st sid = some s) : s ∈ st.sessions := by
  unfold findSession at h
  exact List.mem_of_find?_eq_some h

/-- C3 (amended): a successful `Complete(session)` sets status to completed
and `completed_at` to now, and the session row is still present in the
store after the call (it is not deleted). -/
theorem rtde_complete_marks_and_persists (st : RTDEState)
    (sid uid now : Nat) (st' : RTDEState)
    (h : complete_session st sid uid now = .ok st') :
    ∃ t ∈ st'.sessions, t.id = sid ∧ t.status = "completed" ∧
      t.completed_at = some now := by
  obtain ⟨s, hfind, hown, hst⟩ := complete_session_inv st sid uid now st' h
  have hmem : s ∈ st.sessions := findSession_mem st sid s hfind
  have hsid : s.id = sid := findSession_id st sid s hfind
  refine ⟨s.mark_completed now, ?_, by simp [RTDECountSession.mark_completed, hsid],
    rfl, rfl⟩
  rw [hst]
  apply List.mem_filter.mpr
  constructor
  · have : (if s.id = sid then s.mark_completed now else s) =
        s.mark_completed now := if_pos hsid
    exact this ▸ List.mem_map_of_mem _ hmem
  · apply decide_eq_true
    rintro ⟨-, hstat, -⟩
    have : ("completed" : String) = "in_progress" := hstat
    simp at this

/-- Concrete store for the C3 counterexample: one in-progress session
owned by user 1, with one count row. -/
def c3State : RTDEState :=
  { sessions := [{ id := 1, user_id := 1, status := "in_progress",
                   started_at := 0, expires_at := 1800 }]
    counts := [{ session_id := 1, item_id := 2, counted_quantity := 3 }]
    items := [{ id := 2, name := "Water", par_level := 10,
                display_order := 1 }] }

/-- C3 counterexample: after a successful `complete_session`, the
persisted session row still exists (with status completed) — the row is
not deleted, contrary to the claim. -/
theorem rtde_complete_row_survives :
    ∃ st', complete_session c3State 1 1 100 = .ok st' ∧
      (st'.sessions.any fun t => t.id = 1) = true ∧
      (st'.sessions.any fun t => t.status = "completed") = true :=
  ⟨_, rfl, by decide, by decide⟩

/-- Witness for C3's amended theorem at the concrete store. -/
theorem rtde_complete_marks_and_persists_witness :
    ∃ t ∈ (rtdeCommitted c3State
        (complete_session c3State 1 1 100)).sessions,
      t.id = 1 ∧ t.status = "completed" ∧ t.completed_at = some 100 := by
  have h := rtde_complete_marks_and_persists c3State 1 1 100
    (rtdeCommitted c3State (complete_session c3State 1 1 100)) rfl
  exact h

/-- C10: after a successful `Complete(session)`, the session row persists
with status completed and `completed_at` set, every count row of that
session is gone, and no in-progress session remains for the calling
user. -/
theorem rtde_complete_frame (st : RTDEState) (sid uid now : Nat)
    (st' : RTDEState) (h : complete_session st sid uid now = .ok st') :
    (∃ t ∈ st'.sessions, t.id = sid ∧ t.status = "completed" ∧
      t.completed_at = some now) ∧
    (∀ c ∈ st'.counts, c.session_id ≠ sid) ∧
    (∀ t ∈ st'.sessions, ¬(t.user_id = uid ∧ t.status = "in_progress")) := by
  obtain ⟨s, hfind, hown, hst⟩ := complete_session_inv st sid uid now st' h
  have hmem : s ∈ st.sessions := findSession_mem st sid s hfind
  have hsid : s.id = sid := findSession_id st sid s hfind
  refine ⟨?_, ?_, ?_⟩
  · refine ⟨s.mark_completed now, ?_,
      by simp [RTDECountSession.mark_completed, hsid], rfl, rfl⟩
    rw [hst]
    apply List.mem_filter.mpr
    refine ⟨?_, ?_⟩
    · have : (if s.id = sid then s.mark_completed now else s) =
          s.mark_completed now := if_pos hsid
      exact this ▸ List.mem_map_of_mem _ hmem
    · apply decide_eq_true
      rintro ⟨-, hstat, -⟩
      have : ("completed" : String) = "in_progress" := hstat
      simp at this
  · intro c hc
    rw [hst] at hc
    exact of_decide_eq_true (List.mem_filter.mp hc).2
  · rintro t ht ⟨hu, hs⟩
    rw [hst] at ht
    obtain ⟨htmem, htp⟩ := List.mem_filter.mp ht
    have htid : t.id = sid := by
      by_contra hne
      exact (of_decide_eq_true htp) ⟨hu, hs, hne⟩
    obtain ⟨orig, horig, heq⟩ := List.mem_map.mp htmem
    by_cases ho : orig.id = sid
    · rw [if_pos ho] at heq
      have : t.status = "completed" := by rw [← heq]; rfl
      rw [this] at hs
      simp at hs
    · rw [if_neg ho] at heq
      rw [← heq] at htid
      exact ho htid

/-- Witness for C10 at a concrete store with a count row and a stray
in-progress session of the same user. -/
def c10State : RTDEState :=
  { sessions := [{ id := 1, user_id := 1, status := "in_progress",
                   started_at := 50, expires_at := 1850 },
                 { id := 2, user_id := 1, status := "in_progress",
                   started_at := 0, expires_at := 1800 }]
    counts := [{ session_id := 1, item_id := 2, counted_quantity := 3 },
               { session_id := 3, item_id := 2, counted_quantity := 4 }]
    items := [{ id := 2, name := "Water", par_level := 10,
                display_order := 1 }] }

/-- Witness for C10: the frame theorem applied at `c10State`. -/
theorem rtde_complete_frame_witness :
    (∃ t ∈ (rtdeCommitted c10State
        (complete_session c10State 1 1 99)).sessions,
      t.id = 1 ∧ t.status = "completed" ∧ t.completed_at = some 99) ∧
    (∀ c ∈ (rtdeCommitted c10State
        (complete_session c10State 1 1 99)).counts, c.session_id ≠ 1) ∧
    (∀ t ∈ (rtdeCommitted c10State
        (complete_session c10State 1 1 99)).sessions,
      ¬(t.user_id = 1 ∧ t.status = "in_progress")) :=
  rtde_complete_frame c10State 1 1 99
    (rtdeCommitted c10State (complete_session c10State 1 1 99)) rfl

/-- `pickLatest` returns an element of its list. -/
lemma pickLatest_mem :
    ∀ (l : List RTDECountSession) (s : RTDECountSession),
      pickLatest l = some s → s ∈ l := by
  intro l
  induction l with
  | nil => intro s h; cases h
  | cons a rest ih =>
    intro s h
    simp only [pickLatest] at h
    split at h
    · cases h
      exact List.mem_cons_self a rest
    · rename_i t hrest
      split at h
      · cases h
        exact List.mem_cons_of_mem _ (ih _ hrest)
      · cases h
        exact List.mem_cons_self a rest

/-- The session returned by `latestInProgress` belongs to the store, is
owned by the user, and is in progress. -/
lemma latestInProgress_props (st : RTDEState) (uid : Nat)
    (s : RTDECountSession) (h : latestInProgress st uid = some s) :
    s ∈ st.sessions ∧ s.user_id = uid ∧ s.status = "in_progress" := by
  unfold latestInProgress at h
  have hmem := pickLatest_mem _ _ h
  have hf := List.mem_filter.mp hmem
  have hp := hf.2
  simp only [decide_eq_true_eq] at hp
  exact ⟨hf.1, hp.1, hp.2⟩

/-- C4 (amended): only the active-session lookup performs the lazy expiry
flip — it reports an expired session as absent and persists its status as
`expired`; the resume path reports it as absent but mutates nothing; and
the direct session fetch performs no expiry check at all (an expired
owned session is still returned as present). -/
theorem rtde_lazy_flip_only_active_lookup (st : RTDEState)
    (uid now sid newId : Nat) (s : RTDECountSession) :
    (latestInProgress st uid = some s → s.is_expired now = true →
      (get_active_session st uid now).2 = none ∧
      ∃ t ∈ (get_active_session st uid now).1.sessions,
        t.id = s.id ∧ t.status = "expired") ∧
    (latestInProgress st uid = some s → s.is_expired now = true →
      start_session st uid now .resume newId = .error .noActiveSession ∧
      rtdeAfter st (start_session st uid now .resume newId) = st) ∧
    (∀ t, findSession st sid = some t → t.user_id = uid →
      ∃ v, get_session st sid uid = .ok (t, v)) := by
  refine ⟨?_, ?_, ?_⟩
  · intro hl hexp
    unfold get_active_session
    rw [hl]
    dsimp only
    rw [if_pos hexp]
    refine ⟨rfl, {s with status := "expired"}, ?_, rfl, rfl⟩
    unfold setSessionStatus
    have hmem := (latestInProgress_props st uid s hl).1
    have himg :
        (fun t => if t.id = s.id then {t with status := "expired"} else t) s
          = {s with status := "expired"} := if_pos rfl
    exact himg ▸ List.mem_map_of_mem _ hmem
  · intro hl hexp
    unfold start_session rtdeAfter
    dsimp only
    rw [hl]
    dsimp only
    rw [if_pos hexp]
    exact ⟨rfl, rfl⟩
  · intro t hfind hut
    unfold get_session
    split
    · rename_i hnone
      rw [hfind] at hnone
      cases hnone
    · rename_i u hsome
      rw [hfind] at hsome
      cases hsome
      rw [if_neg (by simp [hut])]
      exact ⟨_, rfl⟩

/-- Concrete store for C4: user 1 owns an in-progress session whose
`expires_at` (1800) lies before `now` (2000). -/
def c4State : RTDEState :=
  { sessions := [{ id := 1, user_id := 1, status := "in_progress",
                   started_at := 0, expires_at := 1800 }]
    counts := []
    items := [] }

/-- C4 counterexample: the resume read of an expired in-progress session
reports it absent but does *not* flip its persisted status (it stays
`in_progress`), and the direct session fetch still reports the expired
session as present — so not every read performs the lazy flip. -/
theorem rtde_resume_does_not_flip :
    start_session c4State 1 2000 .resume 9 = .error .noActiveSession ∧
    rtdeAfter c4State (start_session c4State 1 2000 .resume 9) = c4State ∧
    ((rtdeAfter c4State (start_session c4State 1 2000 .resume 9)).sessions.any
      fun t => t.status = "in_progress") = true ∧
    ∃ v, get_session c4State 1 1 = .ok v :=
  ⟨rfl, rfl, by decide, ⟨_, rfl⟩⟩

/-- Witness for C4's amended theorem at the concrete store. -/
theorem rtde_lazy_flip_witness :
    ((get_active_session c4State 1 2000).2 = none ∧
      ∃ t ∈ (get_active_session c4State 1 2000).1.sessions,
        t.id = 1 ∧ t.status = "expired") ∧
    (start_session c4State 1 2000 .resume 9 = .error .noActiveSession ∧
      rtdeAfter c4State (start_session c4State 1 2000 .resume 9) = c4State) := by
  have h := rtde_lazy_flip_only_active_lookup c4State 1 2000 1 9
    { id := 1, user_id := 1, status := "in_progress",
      started_at := 0, expires_at := 1800 }
  exact ⟨h.1 rfl rfl, h.2.1 rfl rfl⟩

/-- C5 (amended): `update_count` enforces existence and ownership but never
consults the session's status: a non-owner gets Forbidden with nothing
committed, while the owner's well-formed update succeeds and commits the
upsert whatever the session's status is. -/
theorem rtde_update_count_ownership_only (st : RTDEState)
    (sid uid now iid : Nat) (n : Int) (s : RTDECountSession)
    (hfind : findSession st sid = some s) :
    (s.user_id ≠ uid →
      update_count st sid uid now ⟨some iid, some (.int n)⟩ =
        .error .forbidden ∧
      rtdeCommitted st
        (update_count st sid uid now ⟨some iid, some (.int n)⟩) = st) ∧
    (s.user_id = uid → 0 ≤ n →
      (∃ item, (st.items.find? fun i => i.id = iid) = some item) →
      update_count st sid uid now ⟨some iid, some (.int n)⟩ =
        .ok (upsertCount st sid iid n now)) := by
  constructor
  · intro hown
    unfold update_count rtdeCommitted
    split
    · rename_i hnone
      rw [hfind] at hnone
      cases hnone
    · rename_i u hsome
      rw [hfind] at hsome
      cases hsome
      rw [if_pos hown]
      exact ⟨rfl, rfl⟩
  · rintro hown hn ⟨item, hitem⟩
    unfold update_count
    split
    · rename_i hnone
      rw [hfind] at hnone
      cases hnone
    · rename_i u hsome
      rw [hfind] at hsome
      cases hsome
      rw [if_neg (by simp [hown])]
      dsimp only
      rw [if_neg (not_lt.mpr hn), hitem]

/-- Concrete store for C5: user 1 owns session 1 whose status is already
`completed` (not `in_progress`). -/
def c5State : RTDEState :=
  { sessions := [{ id := 1, user_id := 1, status := "completed",
                   started_at := 0, expires_at := 1800,
                   completed_at := some 100 }]
    counts := []
    items := [{ id := 2, name := "Water", par_level := 10,
                display_order := 1 }] }

/-- C5 counterexample: `update_count` on an owned session whose status is
`completed` succeeds and commits a count row — the status precondition in
the claim is not checked by the code. -/
theorem rtde_update_count_on_completed_succeeds :
    update_count c5State 1 1 50 ⟨some 2, some (.int 4)⟩ =
      .ok { c5State with
            counts := [{ session_id := 1, item_id := 2,
                         counted_quantity := 4, updated_at := 50 }] } := rfl

/-- Witness for C5's amended theorem at the concrete store. -/
theorem rtde_update_count_ownership_only_witness :
    update_count c5State 1 1 50 ⟨some 2, some (.int 4)⟩ =
      .ok (upsertCount c5State 1 2 4 50) :=
  (rtde_update_count_ownership_only c5State 1 1 50 2 4
    { id := 1, user_id := 1, status := "completed", started_at := 0,
      expires_at := 1800, completed_at := some 100 } rfl).2
    rfl (by decide) ⟨_, rfl⟩

/-- Applying a morning item to an entry list whose unique match is `e`
(no earlier entry has its id) rewrites exactly that entry. -/
lemma applyMorning_pre_post (item : MorningCountItem) (method : String)
    (now : Nat) (e : MilkOrderEntry) (post : List MilkOrderEntry) :
    ∀ (pre : List MilkOrderEntry),
      (∀ d ∈ pre, d.milk_type_id ≠ e.milk_type_id) →
      applyMorningToEntries (pre ++ e :: post) e.milk_type_id item
          method now =
        (applyMorningEntry item method now e).map
          fun e' => pre ++ e' :: post := by
  intro pre
  induction pre with
  | nil =>
    intro _
    simp only [List.nil_append, applyMorningToEntries, if_pos rfl]
    cases applyMorningEntry item method now e <;> rfl
  | cons d rest ih =>
    intro hpre
    simp only [List.cons_append, applyMorningToEntries, List.append_eq]
    rw [if_neg (hpre d (List.mem_cons_self d rest))]
    rw [ih fun x hx => hpre x (List.mem_cons_of_mem _ hx)]
    cases applyMorningEntry item method now e <;> rfl

/-- The BOH-count morning update on an entry: result of the per-entry
loop body. -/
lemma applyMorningEntry_boh (e : MilkOrderEntry) (c : Int) (now : Nat)
    (mtid : Option Nat) (hc : 0 ≤ c) :
    applyMorningEntry ⟨mtid, some MorningMethod.BOH_COUNT,
        some (.int c), none⟩ MorningMethod.BOH_COUNT now e =
      .ok { e with
            morning_method := some MorningMethod.BOH_COUNT
            current_boh := some c
            delivered := some (max 0 (c - e.boh_count.getD 0))
            updated_at := now } := by
  unfold applyMorningEntry
  rw [if_pos rfl]
  dsimp only
  rw [if_pos hc]

/-- C6: a morning save using the current-back-count method on an entry
whose stored night BOH count is `b` stores
`delivered = max 0 (current_boh - b)` — in particular 0, never negative,
when the submitted morning count is lower than the stored night count —
and the model's `calculate_delivered` then recomputes the same value.
The end-to-end call through `save_morning_count` commits exactly that
entry update. -/
theorem milk_delivered_clamped (s : MilkOrderSession) (uid now : Nat)
    (pre post : List MilkOrderEntry) (e : MilkOrderEntry) (b c : Int)
    (hst : s.status = SessionStatus.morning)
    (hentries : s.entries = pre ++ e :: post)
    (hpre : ∀ d ∈ pre, d.milk_type_id ≠ e.milk_type_id)
    (hb : e.boh_count = some b) (hc : 0 ≤ c) :
    ∃ e', applyMorningEntry ⟨some e.milk_type_id,
        some MorningMethod.BOH_COUNT, some (.int c), none⟩
        MorningMethod.BOH_COUNT now e = .ok e' ∧
      e'.delivered = some (max 0 (c - b)) ∧
      (c < b → e'.delivered = some 0) ∧
      e'.calculate_delivered = some (max 0 (c - b)) ∧
      save_morning_count s uid now [⟨some e.milk_type_id,
          some MorningMethod.BOH_COUNT, some (.int c), none⟩] =
        .ok (MilkOrderSession.mark_morning_complete
          { s with entries := pre ++ e' :: post } uid now) := by
  have happ := applyMorningEntry_boh e c now (some e.milk_type_id) hc
  have hged : e.boh_count.getD 0 = b := by rw [hb]; rfl
  rw [hged] at happ
  refine ⟨_, happ, rfl, ?_, ?_, ?_⟩
  · intro hlt
    have hm : max 0 (c - b) = 0 := max_eq_left (by omega)
    show some (max 0 (c - b)) = some 0
    rw [hm]
  · unfold MilkOrderEntry.calculate_delivered
    rw [if_pos rfl]
    dsimp only
    rw [hb]
  · unfold save_morning_count
    rw [if_neg (by simp [hst])]
    simp only [applyMorningCounts]
    rw [if_pos (Or.inl trivial)]
    rw [hentries, applyMorning_pre_post _ _ _ _ _ _ hpre, happ]
    rfl

/-- Entry for the C6 witness: stored night BOH count 20. -/
def c6Entry : MilkOrderEntry := { milk_type_id := 1, boh_count := some 20 }

/-- Concrete morning-phase session holding `c6Entry`. -/
def c6Session : MilkOrderSession :=
  { status := .morning, entries := [c6Entry] }

/-- Witness for C6 at the spec's example: stored BOH 20, submitted
morning BOH 15 — delivered is clamped to 0. -/
theorem milk_delivered_clamped_witness :
    ∃ e', applyMorningEntry ⟨some c6Entry.milk_type_id,
        some MorningMethod.BOH_COUNT, some (.int 15), none⟩
        MorningMethod.BOH_COUNT 7 c6Entry = .ok e' ∧
      e'.delivered = some (max 0 (15 - 20)) ∧
      ((15 : Int) < 20 → e'.delivered = some 0) ∧
      e'.calculate_delivered = some (max 0 (15 - 20)) ∧
      save_morning_count c6Session 4 7 [⟨some c6Entry.milk_type_id,
          some MorningMethod.BOH_COUNT, some (.int 15), none⟩] =
        .ok (MilkOrderSession.mark_morning_complete
          { c6Session with entries := [] ++ e' :: [] } 4 7) :=
  milk_delivered_clamped c6Session 4 7 [] [] c6Entry 20 15 rfl rfl
    (by intro d hd; cases hd) rfl (by decide)

/-- C9: a morning save using the current-back-count method on an entry
whose stored night BOH count is null treats the stored count as 0 and
stores `delivered = current_boh`; the model's `calculate_delivered`
returns `none` on the resulting entry, so the summary treats its
delivered as 0 regardless of the stored value. -/
theorem milk_delivered_null_boh (s : MilkOrderSession) (uid now : Nat)
    (pre post : List MilkOrderEntry) (e : MilkOrderEntry) (c : Int)
    (hst : s.status = SessionStatus.morning)
    (hentries : s.entries = pre ++ e :: post)
    (hpre : ∀ d ∈ pre, d.milk_type_id ≠ e.milk_type_id)
    (hb : e.boh_count = none) (hc : 0 ≤ c) :
    ∃ e', applyMorningEntry ⟨some e.milk_type_id,
        some MorningMethod.BOH_COUNT, some (.int c), none⟩
        MorningMethod.BOH_COUNT now e = .ok e' ∧
      e'.delivered = some c ∧
      e'.calculate_delivered = none ∧
      (∀ mt : MilkType, (summaryRow e' mt).delivered = 0) ∧
      save_morning_count s uid now [⟨some e.milk_type_id,
          some MorningMethod.BOH_COUNT, some (.int c), none⟩] =
        .ok (MilkOrderSession.mark_morning_complete
          { s with entries := pre ++ e' :: post } uid now) := by
  have happ := applyMorningEntry_boh e c now (some e.milk_type_id) hc
  have hged : e.boh_count.getD 0 = 0 := by rw [hb]; rfl
  have hmax : max 0 (c - e.boh_count.getD 0) = c := by
    rw [hged]
    omega
  rw [hmax] at happ
  have hcd : MilkOrderEntry.calculate_delivered
      { e with
        morning_method := some MorningMethod.BOH_COUNT
        current_boh := some c
        delivered := some c
        updated_at := now } = none := by
    unfold MilkOrderEntry.calculate_delivered
    rw [if_pos rfl]
    dsimp only
    rw [hb]
  refine ⟨_, happ, rfl, hcd, ?_, ?_⟩
  · intro mt
    unfold summaryRow
    dsimp only
    rw [hcd]
    rfl
  · unfold save_morning_count
    rw [if_neg (by simp [hst])]
    simp only [applyMorningCounts]
    rw [if_pos (Or.inl trivial)]
    rw [hentries, applyMorning_pre_post _ _ _ _ _ _ hpre, happ]
    rfl

/-- Entry for the C9 witness: never touched in the BOH phase. -/
def c9Entry : MilkOrderEntry := { milk_type_id := 2 }

/-- Concrete morning-phase session holding `c9Entry`. -/
def c9Session : MilkOrderSession :=
  { status := .morning, entries := [c9Entry] }

/-- Witness for C9 at a concrete entry with a null stored BOH count. -/
theorem milk_delivered_null_boh_witness :
    ∃ e', applyMorningEntry ⟨some c9Entry.milk_type_id,
        some MorningMethod.BOH_COUNT, some (.int 12), none⟩
        MorningMethod.BOH_COUNT 7 c9Entry = .ok e' ∧
      e'.delivered = some 12 ∧
      e'.calculate_delivered = none ∧
      (∀ mt : MilkType, (summaryRow e' mt).delivered = 0) ∧
      save_morning_count c9Session 4 7 [⟨some c9Entry.milk_type_id,
          some MorningMethod.BOH_COUNT, some (.int 12), none⟩] =
        .ok (MilkOrderSession.mark_morning_complete
          { c9Session with entries := [] ++ e' :: [] } 4 7) :=
  milk_delivered_null_boh c9Session 4 7 [] [] c9Entry 12 rfl rfl
    (by intro d hd; cases hd) rfl (by decide)

/-- Entry for the C7 example rows: front 10, back 20, delivered 10
(direct method), on-order 5. -/
def c7EntryA : MilkOrderEntry :=
  { milk_type_id := 1, foh_count := some 10, boh_count := some 20,
    morning_method := some MorningMethod.DIRECT_DELIVERED,
    delivered := some 10, on_order := some 5 }

/-- Milk type with par 50 for the first C7 example. -/
def c7TypeA : MilkType :=
  { id := 1, name := "Whole", category := "dairy", display_order := 1,
    active := true, par_value := some 50 }

/-- Entry totalling 50 for the C7 order-floor example. -/
def c7EntryB : MilkOrderEntry :=
  { milk_type_id := 2, foh_count := some 20, boh_count := some 20,
    morning_method := some MorningMethod.DIRECT_DELIVERED,
    delivered := some 10 }

/-- Milk type with par 30 for the order-floor example. -/
def c7TypeB : MilkType :=
  { id := 2, name := "Oat", category := "non_dairy", display_order := 2,
    active := true, par_value := some 30 }

/-- C7: every row of `get_session_summary` satisfies
`total = foh + boh + delivered` (missing components treated as 0) and
`order = max 0 (par - total - on_order)`, so the order quantity is never
negative; the spec's two examples evaluate as claimed (front=10, back=20,
delivered=10, on_order=5, par=50 gives total=40 and order=5; total=50
with par=30 gives order=0). -/
theorem milk_summary_order_formula (s : MilkOrderSession)
    (mts : List MilkType) (row : SummaryRow)
    (hrow : row ∈ (get_session_summary s mts).1) :
    (row.total = row.foh + row.boh + row.delivered ∧
      row.order = max 0 (row.par - row.total - row.on_order) ∧
      0 ≤ row.order) ∧
    summaryRow c7EntryA c7TypeA =
      ⟨"Whole", "dairy", 10, 20, 10, 5, 40, 50, 5⟩ ∧
    summaryRow c7EntryB c7TypeB =
      ⟨"Oat", "non_dairy", 20, 20, 10, 0, 50, 30, 0⟩ := by
  refine ⟨?_, by decide, by decide⟩
  unfold get_session_summary at hrow
  dsimp only at hrow
  obtain ⟨p, hp, hrow⟩ := List.mem_map.mp hrow
  subst hrow
  exact ⟨rfl, rfl, le_max_left 0 _⟩

/-- Concrete session and catalog for the C7 witness. -/
def c7Session : MilkOrderSession :=
  { status := .completed, entries := [c7EntryA, c7EntryB] }

/-- Witness for C7 at the concrete session: its first summary row obeys
the formulas, and the two spec examples hold. -/
theorem milk_summary_order_formula_witness :
    ((summaryRow c7EntryA c7TypeA).total =
        (summaryRow c7EntryA c7TypeA).foh +
        (summaryRow c7EntryA c7TypeA).boh +
        (summaryRow c7EntryA c7TypeA).delivered ∧
      (summaryRow c7EntryA c7TypeA).order =
        max 0 ((summaryRow c7EntryA c7TypeA).par -
          (summaryRow c7EntryA c7TypeA).total -
          (summaryRow c7EntryA c7TypeA).on_order) ∧
      0 ≤ (summaryRow c7EntryA c7TypeA).order) ∧
    summaryRow c7EntryA c7TypeA =
      ⟨"Whole", "dairy", 10, 20, 10, 5, 40, 50, 5⟩ ∧
    summaryRow c7EntryB c7TypeB =
      ⟨"Oat", "non_dairy", 20, 20, 10, 0, 50, 30, 0⟩ :=
  milk_summary_order_formula c7Session [c7TypeA, c7TypeB]
    (summaryRow c7EntryA c7TypeA) (by decide)

/-- Membership in an insertion step. -/
lemma mem_insertByKey {α : Type} (key : α → Int) (b : α) :
    ∀ (l : List α) (a : α), a ∈ insertByKey key b l ↔ a = b ∨ a ∈ l := by
  intro l
  induction l with
  | nil =>
    intro a
    simp [insertByKey]
  | cons c rest ih =>
    intro a
    simp only [insertByKey]
    by_cases h : key b < key c
    · rw [if_pos h]
      simp [List.mem_cons]
    · rw [if_neg h]
      simp only [List.mem_cons, ih]
      tauto

/-- `sortByKey` is a permutation membership-wise. -/
lemma mem_sortByKey {α : Type} (key : α → Int) :
    ∀ (l : List α) (a : α), a ∈ sortByKey key l ↔ a ∈ l := by
  intro l
  induction l with
  | nil =>
    intro a
    exact Iff.rfl
  | cons c rest ih =>
    intro a
    simp only [sortByKey]
    rw [mem_insertByKey]
    simp only [List.mem_cons, ih]

/-- What a produced pull-list row says about its item. -/
lemma pullRow_some (st : RTDEState) (sid : Nat) (item : RTDEItem)
    (row : PullListRow) (h : pullRow st sid item = some row) :
    0 < row.need_quantity ∧ row.item_id = item.id ∧
    row.need_quantity = max 0 (item.par_level -
      ((findCount st sid item.id).map fun c => c.counted_quantity).getD 0)
    := by
  unfold pullRow at h
  dsimp only at h
  split at h
  · rename_i hpos
    cases h
    exact ⟨hpos, rfl, rfl⟩
  · cases h

/-- An active item with no count row and positive par produces a row
demanding exactly the par level. -/
lemma pullRow_no_count (st : RTDEState) (sid : Nat) (item : RTDEItem)
    (hnone : findCount st sid item.id = none)
    (hp : 0 < item.par_level) :
    pullRow st sid item =
      some ⟨item.id, item.par_level, false⟩ := by
  unfold pullRow
  rw [hnone]
  simp only [Option.map_none', Option.getD_none, Int.sub_zero]
  rw [max_eq_right hp.le]
  rw [if_pos hp]

/-- C8: for a session owned by the caller, `get_pull_list` succeeds; every
returned row has a strictly positive need (items with need 0 are absent),
every row's need is `max 0 (par_level - counted_quantity)` for an active
catalog item (counted 0 when no count row exists), and every active item
with no count row and positive par appears with `need_quantity` equal to
its par level. -/
theorem rtde_pull_list_need (st : RTDEState) (sid uid : Nat)
    (s : RTDECountSession) (hfind : findSession st sid = some s)
    (hown : s.user_id = uid) :
    ∃ pl tot pulled,
      get_pull_list st sid uid = .ok (pl, tot, pulled) ∧
      (∀ row ∈ pl, 0 < row.need_quantity) ∧
      (∀ row ∈ pl, ∃ item ∈ st.items, item.active = true ∧
        row.item_id = item.id ∧
        row.need_quantity = max 0 (item.par_level -
          ((findCount st sid item.id).map
            fun c => c.counted_quantity).getD 0)) ∧
      (∀ item ∈ st.items, item.active = true →
        findCount st sid item.id = none → 0 < item.par_level →
        ∃ row ∈ pl, row.item_id = item.id ∧
          row.need_quantity = item.par_level) := by
  unfold get_pull_list
  split
  · rename_i hnone
    rw [hfind] at hnone
    cases hnone
  · rename_i u hsome
    rw [hfind] at hsome
    cases hsome
    rw [if_neg (by simp [hown])]
    refine ⟨_, _, _, rfl, ?_, ?_, ?_⟩
    · intro row hrow
      obtain ⟨item, hitem, hf⟩ := List.mem_filterMap.mp hrow
      exact (pullRow_some st sid item row hf).1
    · intro row hrow
      obtain ⟨item, hitem, hf⟩ := List.mem_filterMap.mp hrow
      have hmem := (mem_sortByKey _ _ item).mp hitem
      obtain ⟨hmem', hact⟩ := List.mem_filter.mp hmem
      obtain ⟨h1, h2, h3⟩ := pullRow_some st sid item row hf
      exact ⟨item, hmem', hact, h2, h3⟩
    · intro item hitem hact hnone hp
      refine ⟨⟨item.id, item.par_level, false⟩, ?_, rfl, rfl⟩
      apply List.mem_filterMap.mpr
      refine ⟨item, ?_, pullRow_no_count st sid item hnone hp⟩
      exact (mem_sortByKey _ _ item).mpr
        (List.mem_filter.mpr ⟨hitem, hact⟩)

/-- Concrete store for the C8 witness: one active item with par 10 and no
count row, one active item fully counted to par. -/
def c8State : RTDEState :=
  { sessions := [{ id := 1, user_id := 1, status := "in_progress",
                   started_at := 0, expires_at := 1800 }]
    counts := [{ session_id := 1, item_id := 3, counted_quantity := 5 }]
    items := [{ id := 2, name := "Water", par_level := 10,
                display_order := 1 },
              { id := 3, name := "Juice", par_level := 5,
                display_order := 2 }] }

/-- Witness for C8: the pull-list theorem applied at the concrete store. -/
theorem rtde_pull_list_need_witness :
    ∃ pl tot pulled,
      get_pull_list c8State 1 1 = .ok (pl, tot, pulled) ∧
      (∀ row ∈ pl, 0 < row.need_quantity) ∧
      (∀ row ∈ pl, ∃ item ∈ c8State.items, item.active = true ∧
        row.item_id = item.id ∧
        row.need_quantity = max 0 (item.par_level -
          ((findCount c8State 1 item.id).map
            fun c => c.counted_quantity).getD 0)) ∧
      (∀ item ∈ c8State.items, item.active = true →
        findCount c8State 1 item.id = none → 0 < item.par_level →
        ∃ row ∈ pl, row.item_id = item.id ∧
          row.need_quantity = item.par_level) :=
  rtde_pull_list_need c8State 1 1
    { id := 1, user_id := 1, status := "in_progress",
      started_at := 0, expires_at := 1800 } rfl rfl

end SirenBase
